import Mathlib

/-!
# Verification of the psi_exporter collection pipeline

A shallow embedding of `src/main.rs` of cloudflare/psi_exporter: the PSI
data model, the metric snapshot builder (`registry`), the metric
registration step, the pressure-file locator (walkdir traversal with
`is_interesting` / `is_pressure` filters) and the per-scrape measurement
aggregator (`get_service_measurements`), together with theorems settling
the specified behaviour of each part.

Modelling conventions:
* Rust `f32`/`f64` values (the kernel `avg*` percentages and derived
  ratios) are modelled as `ℚ`; all values appearing here are small
  decimal fractions represented exactly by both `f32`/`f64` and `ℚ`,
  and the code only divides them by powers of ten and compares to zero.
* `std::time::Duration` (built by the psi crate via
  `Duration::from_micros`) is modelled by its microsecond count as `ℕ`;
  `Duration::as_nanos()` is the microsecond count times 1000.
* The `prometheus` registry built per scrape is modelled by the list of
  samples it gathers: each label combination is touched at most once per
  metric family, so `inc_by` from zero and `set` both record exactly the
  given value.
* `HashMap` is modelled as an association list; iteration order of the
  `maplit` controller/kind maps is fixed as written in the source
  (cpu, memory, io; some, full) — no claim depends on iteration order.
-/

/-- One kernel PSI line kind: `psi::PsiLine` (`Some` / `Full`). -/
inductive PsiLine where
  | some : PsiLine
  | full : PsiLine
deriving DecidableEq, Repr

/-- One parsed PSI record: `psi::Psi`. `avg*` are kernel-native percentage
values (e.g. `5.00`); `total_us` is the cumulative stall time in
microseconds (the psi crate parses `total=` as microseconds). -/
structure Psi where
  line : PsiLine
  avg10 : ℚ
  avg60 : ℚ
  avg300 : ℚ
  total_us : ℕ
deriving DecidableEq, Repr

/-- The value of `Duration::as_nanos()` of the record's total stall time. -/
def totalNanos (p : Psi) : ℕ := p.total_us * 1000

/-- Struct `PsiStats` (src/main.rs lines 258-262): per-controller bundle of the
optional `some` and `full` records. -/
structure PsiStats where
  some : Option Psi
  full : Option Psi
deriving DecidableEq, Repr

/-- Default `PsiStats`: both kinds absent. -/
def defaultStats : PsiStats := ⟨Option.none, Option.none⟩

/-- Struct `PsiMeasurements` (src/main.rs lines 264-269): per-service bundle of
the three controllers. The `io` field of the source is named
`ioController` here. -/
structure PsiMeasurements where
  cpu : PsiStats
  memory : PsiStats
  ioController : PsiStats
deriving DecidableEq, Repr

/-- Default `PsiMeasurements`. -/
def defaultMeasurements : PsiMeasurements :=
  ⟨defaultStats, defaultStats, defaultStats⟩

/-- One gathered metric sample: family name, the three label values
`id`/`controller`/`kind`, and the recorded value. -/
structure Sample where
  name : String
  id : String
  controller : String
  kind : String
  value : ℚ
deriving DecidableEq, Repr

/-- Body of the innermost loop of `registry` (src/main.rs lines 123-156):
the samples recorded for one `(service, controller, kind)` label
combination given its optional record and the two policy flags. `None`
data is skipped (`continue`); the counter sample is recorded when
`report_zeros || data.total.as_nanos() > 0`; the three average gauges are
recorded only when `report_avg`, each under its own
`report_zeros || data.avgN > 0.0` test. -/
def emitCombination (service controller kind : String) (data : Option Psi)
    (report_avg report_zeros : Bool) : List Sample :=
  match data with
  | Option.none => []
  | Option.some data =>
    (if report_zeros = true ∨ 0 < totalNanos data then
      [⟨"pressure_total_seconds", service, controller, kind,
        (totalNanos data : ℚ) / 1000000000⟩]
    else []) ++
    (if report_avg = true then
      (if report_zeros = true ∨ 0 < data.avg10 then
        [⟨"pressure_avg_10s_ratio", service, controller, kind,
          data.avg10 / 100⟩]
      else []) ++
      (if report_zeros = true ∨ 0 < data.avg60 then
        [⟨"pressure_avg_60s_ratio", service, controller, kind,
          data.avg60 / 100⟩]
      else []) ++
      (if report_zeros = true ∨ 0 < data.avg300 then
        [⟨"pressure_avg_300s_ratio", service, controller, kind,
          data.avg300 / 100⟩]
      else [])
    else [])

/-- The `kinds` loop of `registry` (src/main.rs lines 118-157): the two
pressure kinds of one controller. -/
def emitStats (service controller : String) (st : PsiStats)
    (report_avg report_zeros : Bool) : List Sample :=
  emitCombination service controller "some" st.some report_avg report_zeros ++
  emitCombination service controller "full" st.full report_avg report_zeros

/-- The `controllers` loop of `registry` (src/main.rs lines 111-158): the
three controllers of one service. -/
def emitService (service : String) (m : PsiMeasurements)
    (report_avg report_zeros : Bool) : List Sample :=
  emitStats service "cpu" m.cpu report_avg report_zeros ++
  emitStats service "memory" m.memory report_avg report_zeros ++
  emitStats service "io" m.ioController report_avg report_zeros

/-- The full sample set gathered from the registry built by `registry`
(src/main.rs lines 70-162) for a given service map and policy flags. -/
def registrySamples (sm : List (String × PsiMeasurements))
    (report_avg report_zeros : Bool) : List Sample :=
  match sm with
  | [] => []
  | (s, m) :: rest =>
    emitService s m report_avg report_zeros ++
    registrySamples rest report_avg report_zeros

/-- The `cpu` record of the spec's end-to-end example:
`some avg10=5.00 avg60=2.00 avg300=1.00 total=500000`. -/
def examplePsiSome : Psi := ⟨PsiLine.some, 5, 2, 1, 500000⟩

/-- The all-zero `full` record of the spec's end-to-end example. -/
def examplePsiFull : Psi := ⟨PsiLine.full, 0, 0, 0, 0⟩

/-- The `/a.slice` service of the spec's end-to-end example: only
`cpu.pressure` exists, with the two records above. -/
def exampleMeasurements : PsiMeasurements :=
  ⟨⟨Option.some examplePsiSome, Option.some examplePsiFull⟩,
   defaultStats, defaultStats⟩

/-- Claim C1: for a service whose cpu controller has a `some` record with
avg10=5.00, avg60=2.00, avg300=1.00, total=500000 µs, the snapshot
builder with report_avg=true and report_zeros=true emits, for labels
(service, "cpu", "some"), pressure_total_seconds = 0.5,
pressure_avg_10s_ratio = 0.05, pressure_avg_60s_ratio = 0.02 and
pressure_avg_300s_ratio = 0.01, and for an all-zero `full` record it
emits all four metrics with value 0. -/
theorem c1_snapshot_example :
    registrySamples [("/a.slice", exampleMeasurements)] true true =
      [⟨"pressure_total_seconds", "/a.slice", "cpu", "some", 0.5⟩,
       ⟨"pressure_avg_10s_ratio", "/a.slice", "cpu", "some", 0.05⟩,
       ⟨"pressure_avg_60s_ratio", "/a.slice", "cpu", "some", 0.02⟩,
       ⟨"pressure_avg_300s_ratio", "/a.slice", "cpu", "some", 0.01⟩,
       ⟨"pressure_total_seconds", "/a.slice", "cpu", "full", 0⟩,
       ⟨"pressure_avg_10s_ratio", "/a.slice", "cpu", "full", 0⟩,
       ⟨"pressure_avg_60s_ratio", "/a.slice", "cpu", "full", 0⟩,
       ⟨"pressure_avg_300s_ratio", "/a.slice", "cpu", "full", 0⟩] := by
  norm_num [registrySamples, emitService, emitStats, emitCombination,
    exampleMeasurements, examplePsiSome, examplePsiFull, defaultStats,
    totalNanos]

/-- Membership test for the `pressure_total_seconds` family. -/
def isTotalSample (x : Sample) : Bool := x.name == "pressure_total_seconds"

/-- Membership test for the three `pressure_avg_*_ratio` families. -/
def isAvgSample (x : Sample) : Bool :=
  x.name == "pressure_avg_10s_ratio" || x.name == "pressure_avg_60s_ratio" ||
    x.name == "pressure_avg_300s_ratio"

/-- Claim C2: for a present record, the `pressure_total_seconds` sample for
its label combination is emitted exactly when `report_zeros` is true or
the total stall time is positive (when suppressed, the combination is
absent from that family, not set to zero), and with `report_zeros = true`
and a zero total exactly one sample with value 0 is emitted. -/
theorem c2_total_zero_suppression (service controller kind : String) (d : Psi)
    (report_avg report_zeros : Bool) :
    ((emitCombination service controller kind (Option.some d) report_avg
        report_zeros).filter isTotalSample =
      if report_zeros = true ∨ 0 < totalNanos d then
        [⟨"pressure_total_seconds", service, controller, kind,
          (totalNanos d : ℚ) / 1000000000⟩]
      else []) ∧
    (d.total_us = 0 →
      (emitCombination service controller kind (Option.some d) report_avg
          true).filter isTotalSample =
        [⟨"pressure_total_seconds", service, controller, kind, 0⟩]) := by
  have key : ∀ rz : Bool,
      (emitCombination service controller kind (Option.some d) report_avg
          rz).filter isTotalSample =
        if rz = true ∨ 0 < totalNanos d then
          [⟨"pressure_total_seconds", service, controller, kind,
            (totalNanos d : ℚ) / 1000000000⟩]
        else [] := by
    intro rz
    cases report_avg <;> cases rz <;>
      simp only [emitCombination, List.filter_append] <;> split_ifs <;> rfl
  refine ⟨key report_zeros, fun h => ?_⟩
  rw [key true]
  simp [totalNanos, h]

/-- Witness for C2 at the all-zero record. -/
theorem c2_total_zero_suppression_witness :
    (emitCombination "/a.slice" "cpu" "full" (Option.some examplePsiFull) true
        true).filter isTotalSample =
      [⟨"pressure_total_seconds", "/a.slice", "cpu", "full", 0⟩] :=
  (c2_total_zero_suppression "/a.slice" "cpu" "full" examplePsiFull true
    true).2 rfl

/-- With `report_avg = false`, the innermost loop of `registry` records no
average-gauge sample for any record and either zero policy. -/
theorem countP_avg_emitCombination (service controller kind : String)
    (data : Option Psi) (rz : Bool) :
    (emitCombination service controller kind data false rz).countP
      isAvgSample = 0 := by
  cases data with
  | none => rfl
  | some d =>
    cases rz <;> simp only [emitCombination] <;> split_ifs <;>
      first
        | rfl
        | simp_all

/-- With `report_avg = false`, one controller contributes no average-gauge
sample. -/
theorem countP_avg_emitStats (service controller : String) (st : PsiStats)
    (rz : Bool) :
    (emitStats service controller st false rz).countP isAvgSample = 0 := by
  simp [emitStats, List.countP_append, countP_avg_emitCombination]

/-- With `report_avg = false`, one service contributes no average-gauge
sample. -/
theorem countP_avg_emitService (service : String) (m : PsiMeasurements)
    (rz : Bool) :
    (emitService service m false rz).countP isAvgSample = 0 := by
  simp [emitService, List.countP_append, countP_avg_emitStats]

/-- Claim C3: when report_avg is false no `pressure_avg_*_ratio` sample
appears in the snapshot for any input and either value of report_zeros;
when report_avg is true each of the three average gauges applies zero
suppression independently per label combination — the emitted samples of
each gauge depend only on that gauge's own value. -/
theorem c3_avg_policy (sm : List (String × PsiMeasurements))
    (service controller kind : String) (d : Psi) (report_zeros : Bool) :
    ((registrySamples sm false report_zeros).countP isAvgSample = 0) ∧
    ((emitCombination service controller kind (Option.some d) true
        report_zeros).filter (fun x => x.name == "pressure_avg_10s_ratio") =
      if report_zeros = true ∨ 0 < d.avg10 then
        [⟨"pressure_avg_10s_ratio", service, controller, kind,
          d.avg10 / 100⟩]
      else []) ∧
    ((emitCombination service controller kind (Option.some d) true
        report_zeros).filter (fun x => x.name == "pressure_avg_60s_ratio") =
      if report_zeros = true ∨ 0 < d.avg60 then
        [⟨"pressure_avg_60s_ratio", service, controller, kind,
          d.avg60 / 100⟩]
      else []) ∧
    ((emitCombination service controller kind (Option.some d) true
        report_zeros).filter (fun x => x.name == "pressure_avg_300s_ratio") =
      if report_zeros = true ∨ 0 < d.avg300 then
        [⟨"pressure_avg_300s_ratio", service, controller, kind,
          d.avg300 / 100⟩]
      else []) := by
  refine ⟨?_, ?_, ?_, ?_⟩
  · induction sm with
    | nil => rfl
    | cons p rest ih =>
      obtain ⟨s, m⟩ := p
      simp [registrySamples, List.countP_append, countP_avg_emitService, ih]
  all_goals
    cases report_zeros <;>
      simp only [emitCombination, List.filter_append] <;> split_ifs <;> rfl

/-- Claim C4: an absent (`None`) pressure kind produces no sample of any of
the four metrics for its label combination, regardless of the two policy
flags, and the other, present kind of the same controller is still
emitted normally. -/
theorem c4_absent_kind_skipped (service controller kind : String)
    (report_avg report_zeros : Bool) (st : PsiStats) :
    emitCombination service controller kind Option.none report_avg
        report_zeros = [] ∧
    (st.some = Option.none →
      emitStats service controller st report_avg report_zeros =
        emitCombination service controller "full" st.full report_avg
          report_zeros) ∧
    (st.full = Option.none →
      emitStats service controller st report_avg report_zeros =
        emitCombination service controller "some" st.some report_avg
          report_zeros) := by
  refine ⟨rfl, fun h => ?_, fun h => ?_⟩ <;>
    simp [emitStats, h, emitCombination]

/-- Witness for C4: in the end-to-end example the memory controller has no
`some` record, and its sample list is exactly that of its `full` kind. -/
theorem c4_absent_kind_skipped_witness :
    emitStats "/a.slice" "memory" defaultStats true true =
      emitCombination "/a.slice" "memory" "full" defaultStats.full true
        true :=
  (c4_absent_kind_skipped "/a.slice" "memory" "some" true true
    defaultStats).2.1 rfl

/-- Name and help text of one metric family, as passed to
`prometheus::opts!` by `counter_vec` / `gauge_vec` (src/main.rs lines
164-170). -/
structure MetricOpts where
  name : String
  help : String
deriving DecidableEq, Repr

/-- Model of `prometheus::Registry::register`: it fails when a metric family with the
same name is already registered (duplicate name, or same name with a
different help text); otherwise adds the family. The source unwraps this
result, so a failure aborts registry construction. -/
def register (registered : List MetricOpts) (m : MetricOpts) :
    Except String (List MetricOpts) :=
  if registered.any (fun r => r.name == m.name) then
    Except.error "duplicate metrics collector registration attempted"
  else
    Except.ok (registered ++ [m])

/-- The four metric families registered by `registry` (src/main.rs lines
78-108), in registration order: the counter first, then the three
average gauges. -/
def registryMetrics : List MetricOpts :=
  [⟨"pressure_total_seconds", "Total time spent under pressure"⟩,
   ⟨"pressure_avg_10s_ratio",
    "Ratio of time spent under pressure in the last 10s at time of measurement"⟩,
   ⟨"pressure_avg_60s_ratio",
    "Ratio of time spent under pressure in the last 60s at time of measurement"⟩,
   ⟨"pressure_avg_300s_ratio",
    "Ratio of time spent under pressure in the last 300s at time of measurement"⟩]

/-- The registration sequence performed on the fresh registry at the start
of `registry`, before any sample is recorded. -/
def registerAll (ms : List MetricOpts) : Except String (List MetricOpts) :=
  ms.foldlM register []

/-- Claim C5: metric registration conflicts are surfaced by the unwrapped
`register` results at snapshot-builder construction, before any sample of
the scrape is recorded; for the four families the source registers into
its fresh per-scrape registry the names are pairwise distinct, so
registration never fails and never aborts the handling of a scrape
request. -/
theorem c5_registration_conflict_free :
    registerAll registryMetrics = Except.ok registryMetrics ∧
    registryMetrics.Pairwise (fun a b => a.name ≠ b.name) := by
  constructor
  · rfl
  · simp [registryMetrics]

/-- A node of the traversed filesystem: a `walkdir::DirEntry` carries its
name as `file_name().to_str()`, an `Option` that is `None` when the name
is not valid UTF-8. Directories carry their child entries. -/
inductive FsTree where
  | file (name : Option String) : FsTree
  | dir (name : Option String) (children : List FsTree) : FsTree

/-- The `file_name().to_str()` of an entry. -/
def nameOf : FsTree → Option String
  | FsTree.file n => n
  | FsTree.dir n _ => n

/-- Whether an entry is a regular file (as `DirEntry::file_type` would
report). -/
def isFile : FsTree → Bool
  | FsTree.file _ => true
  | FsTree.dir _ _ => false

/-- Rust `str::ends_with` on the character sequences of the two strings
(for valid UTF-8, character-suffix and byte-suffix agree). -/
def strEndsWith (s sfx : String) : Bool := sfx.data.isSuffixOf s.data

/-- Predicate `is_interesting` (src/main.rs lines 242-248): an entry is kept when its
name decodes as UTF-8 and does not end in `.mount`, `.socket` or
`.scope`; an undecodable name yields `unwrap_or(false)`, i.e. the entry
is filtered out rather than an error. -/
def is_interesting (name : Option String) : Bool :=
  match name with
  | Option.some s =>
    !(strEndsWith s ".mount" || strEndsWith s ".socket" ||
      strEndsWith s ".scope")
  | Option.none => false

/-- Predicate `is_pressure` (src/main.rs lines 250-256): the entry name decodes as
UTF-8 and ends with the literal suffix `.pressure` (`PRESSURE_SUFFIX`,
src/main.rs line 10). -/
def is_pressure (name : Option String) : Bool :=
  match name with
  | Option.some s => strEndsWith s ".pressure"
  | Option.none => false

mutual

/-- Model of `WalkDir` with `filter_entry(|e| is_interesting(e))`
(src/main.rs lines 184-186): depth-first pre-order traversal in which an
entry failing `is_interesting` is neither yielded nor descended into. -/
def walkTree : FsTree → List FsTree
  | FsTree.file n => if is_interesting n then [FsTree.file n] else []
  | FsTree.dir n cs =>
    if is_interesting n then FsTree.dir n cs :: walkList cs else []

/-- Traversal of a list of sibling entries. -/
def walkList : List FsTree → List FsTree
  | [] => []
  | t :: ts => walkTree t ++ walkList ts

end

/-- The locator pipeline (src/main.rs lines 184-188): the filtered walk
restricted by `is_pressure` to the candidate pressure files. -/
def locate (root : FsTree) : List FsTree :=
  (walkTree root).filter (fun t => is_pressure (nameOf t))

/-- Counterexample to claim C8 as stated: the locator's pressure filter
tests only the entry name, never the file type, so a directory whose name
ends in `.pressure` is yielded even though it is not a file. -/
theorem c8_counterexample :
    locate (FsTree.dir (Option.some "cgroup")
        [FsTree.dir (Option.some "d.pressure") []]) =
      [FsTree.dir (Option.some "d.pressure") []] ∧
    isFile (FsTree.dir (Option.some "d.pressure") []) = false := by
  constructor <;> rfl

/-- Claim C8 (amended): the locator excludes from descent and from results
every entry whose name ends in `.mount`, `.socket` or `.scope` (the whole
subtree below such an entry is pruned), treats entries with undecodable
names as excluded rather than as errors, and among the remaining visited
entries yields exactly those whose name ends in `.pressure` — regardless
of whether they are files or directories. -/
theorem c8_locator_filters (s : String) (cs : List FsTree) (t x : FsTree) :
    ((strEndsWith s ".mount" || strEndsWith s ".socket" ||
        strEndsWith s ".scope") = true →
      walkTree (FsTree.dir (Option.some s) cs) = [] ∧
      walkTree (FsTree.file (Option.some s)) = []) ∧
    walkTree (FsTree.dir Option.none cs) = [] ∧
    walkTree (FsTree.file Option.none) = [] ∧
    (x ∈ locate t ↔ x ∈ walkTree t ∧ is_pressure (nameOf x) = true) := by
  refine ⟨fun h => ?_, rfl, rfl, ?_⟩
  · constructor <;> simp [walkTree, is_interesting, h]
  · simp [locate, List.mem_filter]

/-- Witness for C8 (amended): the subtree below a `.mount` entry is pruned
whole. -/
theorem c8_locator_filters_witness :
    walkTree (FsTree.dir (Option.some "x.mount")
        [FsTree.file (Option.some "cpu.pressure")]) = [] ∧
    walkTree (FsTree.file (Option.some "x.mount")) = [] :=
  (c8_locator_filters "x.mount" [FsTree.file (Option.some "cpu.pressure")]
    (FsTree.file Option.none) (FsTree.file Option.none)).1 (by decide)

/-- One candidate pressure file reached by the loop of
`get_service_measurements` (src/main.rs lines 184-224): the derived
service path (`dir_name`, the parent directory relative to the mountpoint
with a leading `/`), the controller name (file name with the `.pressure`
suffix stripped), and the outcome of opening and reading the file:
`Option.none` when open or read fails, otherwise one
`line.parse::<psi::Psi>()` outcome per line of its content (the parser
lives in the external psi crate, so lines are modelled by their parse
outcome). -/
structure Candidate where
  service : String
  controller : String
  content : Option (List (Except String Psi))

/-- The line loop of `get_service_measurements` (src/main.rs lines
206-217): each parse result is `unwrap`ped — modelled as error
propagation, since the panic aborts the whole scrape — and the record is
routed to the `some` or `full` slot, a later line of the same kind
overwriting an earlier one. -/
def processLines (s f : Option Psi) :
    List (Except String Psi) → Except String (Option Psi × Option Psi)
  | [] => Except.ok (s, f)
  | l :: ls =>
    match l with
    | Except.error e => Except.error e
    | Except.ok p =>
      match p.line with
      | PsiLine.some => processLines (Option.some p) f ls
      | PsiLine.full => processLines s (Option.some p) ls

/-- Lookup in the association-list model of the services `HashMap`. -/
def lookupService : List (String × PsiMeasurements) → String →
    Option PsiMeasurements
  | [], _ => Option.none
  | (k, v) :: rest, s =>
    if k = s then Option.some v else lookupService rest s

/-- Replace the value stored at an existing key of the services map. -/
def setService : List (String × PsiMeasurements) → String →
    PsiMeasurements → List (String × PsiMeasurements)
  | [], _, _ => []
  | (k, v) :: rest, s, nv =>
    if k = s then (k, nv) :: rest else (k, v) :: setService rest s nv

/-- Function `populate_measurements` (src/main.rs lines 229-240): store the stats
in the named controller's slot of the entry; any controller name other
than cpu/memory/io is a no-op. -/
def populate_measurements (controller : String) (m : PsiMeasurements)
    (st : PsiStats) : PsiMeasurements :=
  if controller = "cpu" then ⟨st, m.memory, m.ioController⟩
  else if controller = "memory" then ⟨m.cpu, st, m.ioController⟩
  else if controller = "io" then ⟨m.cpu, m.memory, st⟩
  else m

/-- Operation `services.entry(dir_name).or_default()` composed with
`populate_measurements` (src/main.rs lines 219-223): a default entry is
inserted on the first encounter of a service path, then the controller
slot is written. -/
def applyStats (services : List (String × PsiMeasurements))
    (service controller : String) (st : PsiStats) :
    List (String × PsiMeasurements) :=
  match lookupService services service with
  | Option.some m =>
    setService services service (populate_measurements controller m st)
  | Option.none =>
    services ++
      [(service, populate_measurements controller defaultMeasurements st)]

/-- One iteration of the `get_service_measurements` loop: a failed open or
read is skipped via `skip_fail!` (src/main.rs lines 172-179 and 202-204);
otherwise the lines are processed (a parse failure aborting the scrape)
and the resulting `PsiStats` stored for the candidate's service and
controller. -/
def processCandidate (services : List (String × PsiMeasurements))
    (c : Candidate) : Except String (List (String × PsiMeasurements)) :=
  match c.content with
  | Option.none => Except.ok services
  | Option.some lines =>
    match processLines Option.none Option.none lines with
    | Except.error e => Except.error e
    | Except.ok sf =>
      Except.ok (applyStats services c.service c.controller ⟨sf.1, sf.2⟩)

/-- The fold of the `get_service_measurements` loop over all candidates. -/
def aggregate (services : List (String × PsiMeasurements)) :
    List Candidate → Except String (List (String × PsiMeasurements))
  | [] => Except.ok services
  | c :: cs =>
    match processCandidate services c with
    | Except.error e => Except.error e
    | Except.ok services₂ => aggregate services₂ cs

/-- Function `get_service_measurements` (src/main.rs lines 181-227): aggregation
over the candidates yielded by the locator, starting from the empty
map. -/
def get_service_measurements (cands : List Candidate) :
    Except String (List (String × PsiMeasurements)) :=
  aggregate [] cands

/-- Skipping an unreadable candidate leaves the fold unchanged: the
aggregation over any candidate list equals the aggregation over its
readable sublist, from any starting map. -/
theorem aggregate_filter_readable (cands : List Candidate)
    (services : List (String × PsiMeasurements)) :
    aggregate services cands =
      aggregate services (cands.filter (fun c => c.content.isSome)) := by
  induction cands generalizing services with
  | nil => rfl
  | cons c cs ih =>
    cases hc : c.content with
    | none =>
      have hskip : processCandidate services c = Except.ok services := by
        simp [processCandidate, hc]
      simp [List.filter_cons, hc, aggregate, hskip, ih]
    | some lines =>
      simp only [List.filter_cons, hc, Option.isSome, aggregate,
        processCandidate]
      cases processLines Option.none Option.none lines with
      | error e => rfl
      | ok sf => exact ih _

/-- Claim C7: a candidate path whose open or read fails is skipped alone;
the scrape continues with all remaining candidates, never aborts because
of an unreadable entry, and the resulting mapping equals the one obtained
from the readable candidates only. -/
theorem c7_unreadable_candidates_skipped (cands : List Candidate) :
    get_service_measurements cands =
      get_service_measurements (cands.filter (fun c => c.content.isSome)) :=
  aggregate_filter_readable cands []

/-- A parse failure among the lines makes the line loop fail, whatever the
accumulated records are. -/
theorem processLines_error_of_mem (s f : Option Psi)
    (lines : List (Except String Psi)) (e : String)
    (h : Except.error e ∈ lines) :
    ∃ msg, processLines s f lines = Except.error msg := by
  induction lines generalizing s f with
  | nil => cases h
  | cons l ls ih =>
    cases l with
    | error e₂ => exact ⟨e₂, rfl⟩
    | ok p =>
      have hmem : Except.error e ∈ ls := by
        cases List.mem_cons.mp h with
        | inl heq => cases heq
        | inr hmem => exact hmem
      cases hp : p.line <;> simp only [processLines, hp] <;> exact ih _ _ hmem

/-- A candidate whose processing fails from every starting map makes the
whole fold fail. -/
theorem aggregate_error_of_mem (cands : List Candidate) (c : Candidate)
    (hmem : c ∈ cands)
    (herr : ∀ services, ∃ msg,
      processCandidate services c = Except.error msg)
    (services : List (String × PsiMeasurements)) :
    ∃ msg, aggregate services cands = Except.error msg := by
  induction cands generalizing services with
  | nil => cases hmem
  | cons c₂ cs ih =>
    cases hstep : processCandidate services c₂ with
    | error e => exact ⟨e, by simp [aggregate, hstep]⟩
    | ok services₂ =>
      cases List.mem_cons.mp hmem with
      | inl heq =>
        obtain ⟨msg, hc⟩ := herr services
        rw [heq, hstep] at hc
        cases hc
      | inr hmem₂ =>
        obtain ⟨msg, hres⟩ := ih hmem₂ services₂
        exact ⟨msg, by simp [aggregate, hstep, hres]⟩

/-- Claim C6: if any line of a successfully read pressure file fails to
parse as a PSI record, the failure is fatal to the entire scrape — the
whole collection aborts with an error instead of skipping that file or
line. -/
theorem c6_parse_failure_fatal (cands : List Candidate) (c : Candidate)
    (lines : List (Except String Psi)) (e : String)
    (hmem : c ∈ cands) (hcontent : c.content = Option.some lines)
    (hline : Except.error e ∈ lines) :
    ∃ msg, get_service_measurements cands = Except.error msg := by
  apply aggregate_error_of_mem cands c hmem
  intro services
  obtain ⟨msg, hfail⟩ :=
    processLines_error_of_mem Option.none Option.none lines e hline
  exact ⟨msg, by simp [processCandidate, hcontent, hfail]⟩

/-- Witness for C6: a one-candidate scrape whose single line fails to
parse aborts. -/
theorem c6_parse_failure_fatal_witness :
    ∃ msg,
      get_service_measurements
          [⟨"/a.slice", "cpu", Option.some [Except.error "bad line"]⟩] =
        Except.error msg :=
  c6_parse_failure_fatal
    [⟨"/a.slice", "cpu", Option.some [Except.error "bad line"]⟩]
    ⟨"/a.slice", "cpu", Option.some [Except.error "bad line"]⟩
    [Except.error "bad line"] "bad line" (List.mem_singleton.mpr rfl) rfl
    (List.mem_singleton.mpr rfl)

/-- Replacing a value keeps the key sequence of the services map. -/
theorem setService_keys (s : List (String × PsiMeasurements)) (k : String)
    (v : PsiMeasurements) :
    (setService s k v).map Prod.fst = s.map Prod.fst := by
  induction s with
  | nil => rfl
  | cons p rest ih =>
    obtain ⟨k₂, v₂⟩ := p
    by_cases h : k₂ = k <;> simp [setService, h, ih]

/-- A key is absent from the services map exactly when lookup misses. -/
theorem lookupService_none_iff (s : List (String × PsiMeasurements))
    (k : String) :
    lookupService s k = Option.none ↔ k ∉ s.map Prod.fst := by
  induction s with
  | nil => simp [lookupService]
  | cons p rest ih =>
    obtain ⟨k₂, v₂⟩ := p
    by_cases h : k₂ = k
    · subst h
      simp [lookupService]
    · have h₂ : ¬k = k₂ := fun hh => h hh.symm
      simp [lookupService, h, h₂, ih]

/-- Storing a candidate's stats preserves distinctness of the service
keys: a default entry is appended only when the key is absent. -/
theorem applyStats_keys_nodup (s : List (String × PsiMeasurements))
    (sv controller : String) (st : PsiStats)
    (h : (s.map Prod.fst).Nodup) :
    ((applyStats s sv controller st).map Prod.fst).Nodup := by
  unfold applyStats
  cases hl : lookupService s sv with
  | some m => rw [setService_keys]; exact h
  | none =>
    have habs : sv ∉ s.map Prod.fst := (lookupService_none_iff s sv).mp hl
    simp [List.nodup_append, h, habs]

/-- One loop iteration preserves distinctness of the service keys. -/
theorem processCandidate_keys_nodup
    (services s₂ : List (String × PsiMeasurements)) (c : Candidate)
    (h0 : (services.map Prod.fst).Nodup)
    (h : processCandidate services c = Except.ok s₂) :
    (s₂.map Prod.fst).Nodup := by
  unfold processCandidate at h
  split at h
  · cases h
    exact h0
  · split at h
    · cases h
    · cases h
      exact applyStats_keys_nodup services c.service c.controller _ h0

/-- The whole fold preserves distinctness of the service keys. -/
theorem aggregate_keys_nodup (cands : List Candidate)
    (services m : List (String × PsiMeasurements))
    (h0 : (services.map Prod.fst).Nodup)
    (h : aggregate services cands = Except.ok m) :
    (m.map Prod.fst).Nodup := by
  induction cands generalizing services with
  | nil =>
    cases h
    exact h0
  | cons c cs ih =>
    unfold aggregate at h
    cases hstep : processCandidate services c with
    | error e => rw [hstep] at h; cases h
    | ok s₂ =>
      rw [hstep] at h
      exact ih s₂ (processCandidate_keys_nodup services s₂ c h0 hstep) h

/-- Lookup after replacing the value at a present key. -/
theorem lookupService_setService (s : List (String × PsiMeasurements))
    (k : String) (v₀ v : PsiMeasurements)
    (h : lookupService s k = Option.some v₀) :
    lookupService (setService s k v) k = Option.some v := by
  induction s with
  | nil => cases h
  | cons p rest ih =>
    obtain ⟨k₂, v₂⟩ := p
    by_cases hk : k₂ = k
    · simp [setService, lookupService, hk]
    · simp only [lookupService, setService, if_neg hk] at h ⊢
      exact ih h

/-- Lookup after appending a fresh entry for an absent key. -/
theorem lookupService_append_self (s : List (String × PsiMeasurements))
    (k : String) (v : PsiMeasurements)
    (h : lookupService s k = Option.none) :
    lookupService (s ++ [(k, v)]) k = Option.some v := by
  induction s with
  | nil => simp [lookupService]
  | cons p rest ih =>
    obtain ⟨k₂, v₂⟩ := p
    by_cases hk : k₂ = k
    · simp [lookupService, hk] at h
    · simp only [lookupService, if_neg hk] at h
      simpa [lookupService, hk] using ih h

/-- Writing the same controller slot twice keeps only the second write:
`populate_measurements` replaces the slot, it never merges. -/
theorem populate_measurements_overwrite (controller : String)
    (m : PsiMeasurements) (st₁ st₂ : PsiStats) :
    populate_measurements controller (populate_measurements controller m st₁)
        st₂ =
      populate_measurements controller m st₂ := by
  unfold populate_measurements
  split_ifs <;> rfl

/-- The entry visible at a service path after one store: the controller
slot is written in the previous entry, or in a default entry when the
path was absent. -/
theorem lookupService_applyStats (s : List (String × PsiMeasurements))
    (sv controller : String) (st : PsiStats) :
    lookupService (applyStats s sv controller st) sv =
      Option.some (populate_measurements controller
        ((lookupService s sv).getD defaultMeasurements) st) := by
  unfold applyStats
  cases hl : lookupService s sv with
  | some m =>
    simpa [hl] using
      lookupService_setService s sv m
        (populate_measurements controller m st) hl
  | none =>
    simpa [hl] using
      lookupService_append_self s sv
        (populate_measurements controller defaultMeasurements st) hl

/-- Claim C9: a successful aggregation holds exactly one entry per
distinct service path (the key sequence of the resulting map has no
duplicate; a default-initialized entry is inserted on first encounter),
and two stores to the same service/controller pair leave exactly what the
second store wrote — last write wins, no merging. -/
theorem c9_distinct_services_last_write_wins (cands : List Candidate)
    (m : List (String × PsiMeasurements))
    (h : get_service_measurements cands = Except.ok m)
    (ms : List (String × PsiMeasurements)) (sv controller : String)
    (st₁ st₂ : PsiStats) :
    (m.map Prod.fst).Nodup ∧
    lookupService
        (applyStats (applyStats ms sv controller st₁) sv controller st₂)
        sv =
      lookupService (applyStats ms sv controller st₂) sv := by
  constructor
  · exact aggregate_keys_nodup cands [] m (by simp) h
  · rw [lookupService_applyStats, lookupService_applyStats,
      lookupService_applyStats]
    simp [populate_measurements_overwrite]

/-- Witness for C9 at a one-candidate scrape and a double store. -/
theorem c9_distinct_services_last_write_wins_witness :
    (([("/a.slice",
        (⟨⟨Option.some examplePsiSome, Option.none⟩, defaultStats,
          defaultStats⟩ : PsiMeasurements))] :
        List (String × PsiMeasurements)).map Prod.fst).Nodup ∧
    lookupService
        (applyStats
          (applyStats [] "/b.slice" "memory" defaultStats)
          "/b.slice" "memory"
          ⟨Option.some examplePsiFull, Option.none⟩)
        "/b.slice" =
      lookupService
        (applyStats [] "/b.slice" "memory"
          ⟨Option.some examplePsiFull, Option.none⟩)
        "/b.slice" :=
  c9_distinct_services_last_write_wins
    [⟨"/a.slice", "cpu", Option.some [Except.ok examplePsiSome]⟩]
    [("/a.slice",
      ⟨⟨Option.some examplePsiSome, Option.none⟩, defaultStats,
        defaultStats⟩)]
    rfl [] "/b.slice" "memory" defaultStats
    ⟨Option.some examplePsiFull, Option.none⟩

/-- The record of the last line of a given kind among the parsed lines of
one pressure file, if any such line exists. -/
def lastOfKind (k : PsiLine) (ls : List Psi) : Option Psi :=
  (ls.filter (fun p => p.line == k)).getLast?

/-- The last element of a list, or a fallback when the list is empty. -/
def lastOr (l : List Psi) (d : Option Psi) : Option Psi :=
  match l.getLast? with
  | Option.some p => Option.some p
  | Option.none => d

/-- Function `lastOr` absorbs a new head as the fallback. -/
theorem lastOr_cons (p : Psi) (l : List Psi) (d : Option Psi) :
    lastOr (p :: l) d = lastOr l (Option.some p) := by
  cases l with
  | nil => rfl
  | cons q l =>
    simp only [lastOr, List.getLast?_cons_cons]
    cases hq : (q :: l).getLast? with
    | some r => rfl
    | none => simp at hq

/-- On a file whose lines all parse, the line loop succeeds and each slot
holds the record of the last line of its kind, the initial slot value
surviving only when no line of that kind exists. -/
theorem processLines_all_ok (ls : List Psi) (s f : Option Psi) :
    processLines s f (ls.map Except.ok) =
      Except.ok
        (lastOr (ls.filter (fun q => q.line == PsiLine.some)) s,
         lastOr (ls.filter (fun q => q.line == PsiLine.full)) f) := by
  induction ls generalizing s f with
  | nil => rfl
  | cons p ls ih =>
    cases hp : p.line with
    | some =>
      have hstep : processLines s f ((p :: ls).map Except.ok) =
          processLines (Option.some p) f (ls.map Except.ok) := by
        simp [processLines, hp]
      have h₁ : (p :: ls).filter (fun q => q.line == PsiLine.some) =
          p :: ls.filter (fun q => q.line == PsiLine.some) := by
        simp [List.filter_cons, hp]
      have h₂ : (p :: ls).filter (fun q => q.line == PsiLine.full) =
          ls.filter (fun q => q.line == PsiLine.full) := by
        simp [List.filter_cons, hp]
      rw [hstep, ih, h₁, h₂, lastOr_cons]
    | full =>
      have hstep : processLines s f ((p :: ls).map Except.ok) =
          processLines s (Option.some p) (ls.map Except.ok) := by
        simp [processLines, hp]
      have h₁ : (p :: ls).filter (fun q => q.line == PsiLine.some) =
          ls.filter (fun q => q.line == PsiLine.some) := by
        simp [List.filter_cons, hp]
      have h₂ : (p :: ls).filter (fun q => q.line == PsiLine.full) =
          p :: ls.filter (fun q => q.line == PsiLine.full) := by
        simp [List.filter_cons, hp]
      rw [hstep, ih, h₁, h₂, lastOr_cons]

/-- Claim C10: within a single pressure file whose lines all parse
successfully, when several lines share a pressure kind the record of the
last such line is the one stored in the controller's PsiStats; records
from earlier lines of the same kind are silently discarded. -/
theorem c10_duplicate_kind_last_wins (ls : List Psi)
    (sv controller : String)
    (services : List (String × PsiMeasurements)) :
    processCandidate services
        ⟨sv, controller, Option.some (ls.map Except.ok)⟩ =
      Except.ok (applyStats services sv controller
        ⟨lastOfKind PsiLine.some ls, lastOfKind PsiLine.full ls⟩) := by
  have hlast : ∀ l : List Psi, lastOr l Option.none = l.getLast? := by
    intro l
    cases hl : l.getLast? <;> simp [lastOr, hl]
  simp [processCandidate, processLines_all_ok, lastOfKind, hlast]
